import Mathlib

/-!
Verification of the TFTP client core (RFC 1350 client: `tftp_impl.hpp`,
`tftp_protocol_impl.hpp`, `tftp_session_impl.hpp`) against its
natural-language specification.

Bytes are modelled as natural numbers; 16-bit wire fields are decoded with an
explicit `% 256` on each byte.  Durations are integers counting milliseconds,
matching `std::chrono::milliseconds`.
-/

namespace TFTP

/-- Byte sequence of an ASCII string literal. -/
def strBytes (s : String) : List Nat :=
  s.toList.map Char.toNat

/-- 16-bit big-endian field at offset `i` of a datagram, as read by `ntohs`
on two received bytes. -/
def be16 (pkt : List Nat) (i : Nat) : Nat :=
  (pkt.getD i 0 % 256) * 256 + pkt.getD (i + 1) 0 % 256

/-- `status_t`: protocol error code plus message bytes, as completed to the
caller by `set_value`. -/
structure Status where
  code : Nat
  message : List Nat
deriving DecidableEq, Repr

/-! ## RTT estimator (`session_t::update_statistics`, tftp_session_impl.hpp) -/

/-- `session_t::TIMEOUT_MIN` = 2 ms. -/
def TIMEOUT_MIN : Int := 2

/-- `session_t::TIMEOUT_MAX` = 200 ms. -/
def TIMEOUT_MAX : Int := 200

/-- `session_t::update_statistics`: `rtt = now - start_time`;
`avg_rtt = avg_rtt * 3 / 4 + rtt / 4` with C++ truncating integer division;
then `min` with `TIMEOUT_MAX`, then `max` with `TIMEOUT_MIN`;
`start_time = now`.  Returns the updated `(start_time, avg_rtt)`. -/
def update_statistics (start_time now avg_rtt : Int) : Int × Int :=
  let rtt := now - start_time
  let avg := Int.tdiv (avg_rtt * 3) 4 + Int.tdiv rtt 4
  let avg := min avg TIMEOUT_MAX
  let avg := max avg TIMEOUT_MIN
  (now, avg)

/-! ## Wire codec helpers -/

/-- `detail::get_error_message` (tftp_impl.hpp): scan the bytes after the
4-byte ERROR header, within the datagram's `len` bytes, for a NUL; if none is
found return the empty string, otherwise the bytes up to the first NUL. -/
def get_error_message (pkt : List Nat) (len : Nat) : List Nat :=
  let body := (pkt.take len).drop 4
  if body.contains 0 then body.takeWhile (· ≠ 0) else []

/-- `messages::mode_to_str` (tftp_protocol_impl.hpp): `NETASCII = 1`,
`OCTET = 2`, `MAIL = 3`; any other mode yields the empty string. -/
def mode_to_str (mode : Nat) : List Nat :=
  if mode = 1 then strBytes "netascii"
  else if mode = 2 then strBytes "octet"
  else if mode = 3 then strBytes "mail"
  else []

/-- Bytes inserted for a C string by `buffer.insert(buffer.end(), begin,
begin + strlen(begin) + 1)`: the bytes up to the first NUL, then the NUL. -/
def cstrInsert (s : List Nat) : List Nat :=
  s.takeWhile (· ≠ 0) ++ [0]

/-- `put_file_t::state_t::send_wrq`: opcode `htons(WRQ = 2)` followed by the
NUL-terminated target then the NUL-terminated mode string. -/
def send_wrq_packet (target : List Nat) (mode : Nat) : List Nat :=
  [0, 2] ++ cstrInsert target ++ cstrInsert (mode_to_str mode)

/-- `get_file_t::state_t::send_rrq`: opcode `htons(RRQ = 1)` followed by the
NUL-terminated target then the NUL-terminated mode string. -/
def send_rrq_packet (target : List Nat) (mode : Nat) : List Nat :=
  [0, 1] ++ cstrInsert target ++ cstrInsert (mode_to_str mode)

/-- Parse one NUL-terminated string: the bytes before the first NUL and the
rest after it, or `none` when no NUL occurs. -/
def splitCString (xs : List Nat) : Option (List Nat × List Nat) :=
  if xs.contains 0 then some (xs.takeWhile (· ≠ 0), (xs.dropWhile (· ≠ 0)).tail)
  else none

/-! ## NETASCII outbound codec -/

/-- Modelled from the spec: one step of the outbound NETASCII transducer of
`insert_data` (implemented in the repository's `src/tftp.cpp`, which is not
present under `src/`; behaviour corroborated by the `TestTftpStatic`
`InsertData_*` unit tests).  A bare NUL source byte is skipped; LF with a
pending NUL marker at the end of the output backtracks the marker and emits
LF (completing CR LF); LF otherwise emits CR LF; CR emits CR NUL (the NUL is
the pending marker); any other byte is emitted as-is. -/
def insert_data_step (out : List Nat) (c : Nat) : List Nat :=
  if c = 0 then out
  else if c = 10 then
    if out.getLast? = some 0 then out.dropLast ++ [10]
    else out ++ [13, 10]
  else if c = 13 then out ++ [13, 0]
  else out ++ [c]

/-- Modelled from the spec: the outbound NETASCII encoding of a source byte
sequence (`insert_data` in the missing `src/tftp.cpp`, NETASCII and MAIL
modes), obtained by streaming the source through `insert_data_step`. -/
def insert_data (src : List Nat) : List Nat :=
  src.foldl insert_data_step []

/-- Modelled from the spec: the inbound NETASCII decoder used when writing a
received DATA payload to the local file (CR NUL emits CR, CR LF emits LF,
anything else passes through). -/
def netascii_decode : List Nat → List Nat
  | 13 :: 0 :: rest => 13 :: netascii_decode rest
  | 13 :: 10 :: rest => 10 :: netascii_decode rest
  | c :: rest => c :: netascii_decode rest
  | [] => []

/-- Payload decoding per transfer mode on GET: OCTET (2) passes bytes through
unchanged; NETASCII decodes per `netascii_decode`. -/
def decode_payload (mode : Nat) (payload : List Nat) : List Nat :=
  if mode = 2 then payload else netascii_decode payload

/-! ## Client state machine model

The observable effects of the `client_state` handlers are modelled by a
session/filesystem state together with a trace of actions, in the order the
source performs them. -/

/-- One observable action of a handler. -/
inductive Act where
  /-- the session's open (temp) file is closed -/
  | closeFile
  /-- `ctx->timers.remove(state.timer)` -/
  | removeTimer
  /-- an `io::sendmsg` of the given datagram is spawned -/
  | send (bytes : List Nat)
  /-- `ctx->timers.add` arms a timer of the given duration (ms) -/
  | armTimer (duration : Int)
  /-- `std::filesystem::rename(tmp, local)` -/
  | renameTmpToLocal
  /-- `std::filesystem::remove(tmp)` -/
  | removeTmpFile
  /-- `submit_recvmsg` re-arms the receive -/
  | submitRecv
  /-- `set_value(receiver, status)`: the receiver is completed -/
  | complete (st : Status)
  /-- `set_error(receiver, error_code)` -/
  | completeError
deriving DecidableEq, Repr

/-- The state a transfer's handlers act on: the `session_t::state_t` fields
the claims mention plus the local-filesystem facts they observe.
`tmpPathSet` says the `tmp` path member is nonempty (true for GET transfers,
false for PUT); `tmpExists`/`localExists` are filesystem facts.  The timer
slot holds the armed timer's duration.  `renameFails` models the error
output of `std::filesystem::rename`. -/
structure ClientState where
  block_num : Nat := 0
  fileOpen : Bool := true
  socketOpen : Bool := true
  mode : Nat := 1
  buffer : List Nat := []
  stats : Int × Int := (0, TIMEOUT_MAX)
  timer : Option Int := none
  tmpPathSet : Bool := false
  tmpExists : Bool := false
  tmpData : List Nat := []
  localExists : Bool := false
  localData : List Nat := []
  renameFails : Bool := false
deriving DecidableEq, Repr

/-- `client_sender::client_state::cleanup`: remove the retransmit timer
(`timer = ctx->timers.remove(timer)`), then, if the `tmp` path is nonempty,
`std::filesystem::remove(tmp)` (deleting the temp file when it exists).
Nothing else is touched. -/
def cleanup (s : ClientState) : ClientState × List Act :=
  ({ s with
      timer := none
      tmpExists := if s.tmpPathSet then false else s.tmpExists },
   .removeTimer :: (if s.tmpPathSet then [.removeTmpFile] else []))

/-- `client_state::finalize(status_t)`: run `cleanup()`, then complete the
receiver with `set_value(receiver, status)`. -/
def finalizeV (s : ClientState) (st : Status) : ClientState × List Act :=
  ((cleanup s).1, (cleanup s).2 ++ [.complete st])

/-- `client_state::finalize(std::error_code)`: run `cleanup()`, then complete
the receiver with `set_error`. -/
def finalizeE (s : ClientState) : ClientState × List Act :=
  ((cleanup s).1, (cleanup s).2 ++ [.completeError])

/-- `client_state::error_handler`: decode the error code with `ntohs` from
the ERROR packet's second 16-bit field, extract the message with
`get_error_message`, and finalize with that status. -/
def error_handler (pkt : List Nat) (len : Nat) (s : ClientState) :
    ClientState × List Act :=
  finalizeV s ⟨be16 pkt 2, get_error_message pkt len⟩

/-- Dispatch target of `route_message`. -/
inductive RouteTag where
  | toErrorHandler
  | toAckHandler
  | toDataHandler
  | ignored
deriving DecidableEq, Repr

/-- `put_file_t::state_t::route_message`: ERROR (5) goes to `error_handler`,
ACK (4) to `ack_handler`, everything else is ignored (`submit_recvmsg`). -/
def put_route_message (pkt : List Nat) : RouteTag :=
  if be16 pkt 0 = 5 then .toErrorHandler
  else if be16 pkt 0 = 4 then .toAckHandler
  else .ignored

/-- `get_file_t::state_t::route_message`: ERROR (5) goes to `error_handler`,
DATA (3) to `data_handler`, everything else is ignored (`submit_recvmsg`). -/
def get_route_message (pkt : List Nat) : RouteTag :=
  if be16 pkt 0 = 5 then .toErrorHandler
  else if be16 pkt 0 = 3 then .toDataHandler
  else .ignored

/-- The short/truncated-datagram check of `put_file_t::state_t::submit_recvmsg`:
a received length below `sizeof(std::uint16_t)` or a `MSG_TRUNC` flag
finalizes with `{ILLEGAL_OPERATION = 4, "Invalid server response."}`. -/
def put_recv_check (len : Int) (truncated : Bool) : Option Status :=
  if len < 2 ∨ truncated = true then
    some ⟨4, strBytes "Invalid server response."⟩
  else none

/-- The identical short/truncated-datagram check of
`get_file_t::state_t::submit_recvmsg`. -/
def get_recv_check (len : Int) (truncated : Bool) : Option Status :=
  if len < 2 ∨ truncated = true then
    some ⟨4, strBytes "Invalid server response."⟩
  else none

/-! ## PUT retransmit timer (`put_file_t::state_t::submit_sendmsg`) -/

/-- `MAX_RETRIES` = 5 (constexpr inside the PUT timer callback). -/
def MAX_RETRIES : Nat := 5

/-- The closure state of one armed PUT retransmit timer: the value of its
init-captured, mutable `retries` counter. -/
structure PutTimerClosure where
  retries : Nat
deriving DecidableEq, Repr

/-- The retransmit timer armed by `put_file_t::state_t::submit_sendmsg`:
`ctx->timers.add(2 * avg_rtt, [&, retries = 0](auto) mutable ...)` — the
closure init-captures `retries = 0`, so every arming starts a fresh
counter. -/
def put_submit_sendmsg_timer : PutTimerClosure := ⟨0⟩

/-- Outcome of one PUT retransmit-timer fire. -/
inductive PutFireResult where
  /-- `finalize({0, "Timed out"})` -/
  | finalized (st : Status)
  /-- `submit_sendmsg()` retransmitted the buffered datagram and re-armed -/
  | retransmitted (next : PutTimerClosure)
deriving DecidableEq, Repr

/-- The PUT timer callback body: `if (retries++ >= MAX_RETRIES) return
finalize({0, "Timed out"}); submit_sendmsg();`.  The comparison sees the
pre-increment value; the retransmitting branch calls `submit_sendmsg`, which
removes the firing timer and arms a new one whose closure starts over at
`retries = 0`. -/
def put_timer_fire (t : PutTimerClosure) : PutFireResult :=
  if t.retries ≥ MAX_RETRIES then .finalized ⟨0, strBytes "Timed out"⟩
  else .retransmitted put_submit_sendmsg_timer

/-- A run against a silent server: `n` consecutive retransmit-timer fires
with no ACK in between.  Returns the armed closure after `n` fires, or
`none` when some fire finalized the transfer. -/
def put_silent_run : Nat → PutTimerClosure → Option PutTimerClosure
  | 0, t => some t
  | n + 1, t =>
    match put_timer_fire t with
    | .finalized _ => none
    | .retransmitted t2 => put_silent_run n t2

/-! ## GET send path (`get_file_t::state_t::submit_sendmsg` and handlers) -/

/-- ACK packet built by `get_file_t::state_t::data_handler`:
`htons(ACK = 4)` then the block number echoed in network byte order. -/
def ackPacket (block : Nat) : List Nat :=
  [0, 4, block / 256 % 256, block % 256]

/-- `get_file_t::state_t::submit_sendmsg`: update the RTT statistics, remove
any armed timer, spawn `io::sendmsg` of `state.buffer`, and arm one timer of
duration `5 * avg_rtt`. -/
def get_submit_sendmsg (now : Int) (s : ClientState) : ClientState × List Act :=
  let stats := update_statistics s.stats.1 now s.stats.2
  ({ s with stats := stats, timer := some (5 * stats.2) },
   [.removeTimer, .send s.buffer, .armTimer (5 * stats.2)])

/-- The GET timer callback: `if (file->is_open()) return finalize({0, "Timed
out"}); finalize();` — with the file still open the transfer times out; with
the file closed the fire is a completion signal and finalizes OK. -/
def get_timer_callback (s : ClientState) : ClientState × List Act :=
  if s.fileOpen = true then finalizeV s ⟨0, strBytes "Timed out"⟩
  else finalizeV s ⟨0, []⟩

/-- Modelled from the spec: `handle_data` (declared in `tftp.hpp`, implemented
in the repository's `src/tftp.cpp`, which is not present under `src/`).  A
DATA packet carrying the expected next block (current block + 1 mod 65536)
advances `block_num`, appends the mode-decoded payload to the open temp file
and closes the file when the payload is shorter than 512 bytes; any other
block number is ignored.  Local write failures are outside this model, so
the returned TFTP error is 0. -/
def handle_data (b : Nat) (payload : List Nat) (s : ClientState) :
    Nat × (ClientState × List Act) :=
  if b = (s.block_num + 1) % 65536 then
    let s1 := { s with
        block_num := b
        tmpData := s.tmpData ++ decode_payload s.mode payload }
    if payload.length < 512 then (0, { s1 with fileOpen := false }, [.closeFile])
    else (0, s1, [])
  else (0, s, [])

/-- `get_file_t::state_t::data_handler`: run `handle_data`; a nonzero error
finalizes `{error, ""}`.  If the packet's block number equals the session's
`block_num`, build the ACK into `state.buffer` and `submit_sendmsg`.  If the
file is no longer open, rename the temp file onto the local path (finalizing
the rename's error code if it fails) and finalize OK; otherwise re-arm the
receive. -/
def data_handler (now : Int) (pkt : List Nat) (len : Nat) (s : ClientState) :
    ClientState × List Act :=
  let b := be16 pkt 2
  let r1 := handle_data b ((pkt.take len).drop 4) s
  let s1 := r1.2.1
  if r1.1 ≠ 0 then
    let r := finalizeV s1 ⟨r1.1, []⟩
    (r.1, r1.2.2 ++ r.2)
  else
    let r2 :=
      if b = s1.block_num then get_submit_sendmsg now { s1 with buffer := ackPacket b }
      else (s1, [])
    let s2 := r2.1
    if s2.fileOpen = false then
      if s2.renameFails = true then
        let r := finalizeE s2
        (r.1, r1.2.2 ++ r2.2 ++ r.2)
      else
        let s3 := { s2 with
            tmpExists := false
            localExists := true
            localData := s2.tmpData }
        let r := finalizeV s3 ⟨0, []⟩
        (r.1, r1.2.2 ++ r2.2 ++ [.renameTmpToLocal] ++ r.2)
    else (s2, r1.2.2 ++ r2.2 ++ [.submitRecv])

/-! ## Theorems -/

/-- C1: the claim asserts at most `MAX_RETRIES = 5` retransmissions of one
packet before the PUT transfer finalizes `{0, "Timed out"}`, the counter
persisting across re-armings.  In the code every retransmitting fire calls
`submit_sendmsg`, which arms a new timer whose closure init-captures
`retries = 0`; so every fire observes a zero counter, and a silent server
yields unbounded retransmission: after any number `n` of consecutive fires
the transfer is still live with a freshly armed zero counter, even though a
single armed closure would finalize `{0, "Timed out"}` once its own counter
reached `MAX_RETRIES`. -/
theorem put_retry_counter_resets_on_rearm :
    (∀ n : Nat,
      put_silent_run n put_submit_sendmsg_timer = some put_submit_sendmsg_timer)
    ∧ put_timer_fire ⟨MAX_RETRIES⟩ = .finalized ⟨0, strBytes "Timed out"⟩ := by
  constructor
  · intro n
    induction n with
    | zero => rfl
    | succ n ih =>
      simpa [put_silent_run, put_timer_fire, MAX_RETRIES,
             put_submit_sendmsg_timer] using ih
  · rfl

/-- C2: `update_statistics` sets the new average to
`clamp(avg_rtt * 3 / 4 + rtt / 4, TIMEOUT_MIN, TIMEOUT_MAX)` with
`rtt = now - start_time`, so the result always lies in [2 ms, 200 ms], and
`start_time` is set to `now`. -/
theorem update_statistics_ewma_clamped (start_time now avg_rtt : Int) :
    (update_statistics start_time now avg_rtt).2 =
      max TIMEOUT_MIN
        (min (Int.tdiv (avg_rtt * 3) 4 + Int.tdiv (now - start_time) 4)
          TIMEOUT_MAX)
    ∧ TIMEOUT_MIN ≤ (update_statistics start_time now avg_rtt).2
    ∧ (update_statistics start_time now avg_rtt).2 ≤ TIMEOUT_MAX
    ∧ (update_statistics start_time now avg_rtt).1 = now := by
  have h2 : (update_statistics start_time now avg_rtt).2 =
      max (min (Int.tdiv (avg_rtt * 3) 4 + Int.tdiv (now - start_time) 4)
            TIMEOUT_MAX)
        TIMEOUT_MIN := rfl
  refine ⟨?_, ?_, ?_, rfl⟩
  · rw [h2, max_comm]
  · rw [h2]
    exact le_max_right _ _
  · rw [h2]
    exact max_le (min_le_right _ _) (by norm_num [TIMEOUT_MIN, TIMEOUT_MAX])

/-- C8: in both the PUT and the GET receive paths, a datagram whose length
is below 2 bytes, or whose receive was truncated (`MSG_TRUNC`), completes
the transfer with `Status{IllegalOperation = 4, "Invalid server
response."}`. -/
theorem recv_short_or_truncated_rejected (len : Int) (truncated : Bool)
    (h : len < 2 ∨ truncated = true) :
    put_recv_check len truncated =
      some ⟨4, strBytes "Invalid server response."⟩
    ∧ get_recv_check len truncated =
      some ⟨4, strBytes "Invalid server response."⟩ := by
  constructor <;> simp [put_recv_check, get_recv_check, h]

/-- Witness for C8 at the concrete input `len = 1`, untruncated. -/
theorem recv_short_or_truncated_rejected_witness :
    put_recv_check 1 false = some ⟨4, strBytes "Invalid server response."⟩
    ∧ get_recv_check 1 false = some ⟨4, strBytes "Invalid server response."⟩ :=
  recv_short_or_truncated_rejected 1 false (Or.inl (by decide))

/-- C9: for an ERROR datagram of length `len` at least the 4-byte header,
`get_error_message` returns the bytes after the header up to (not including)
the first NUL within the datagram's `len` bytes, and the empty string when
no NUL occurs there. -/
theorem get_error_message_spec (pkt : List Nat) (len : Nat) (_h : 4 ≤ len) :
    (((pkt.take len).drop 4).contains 0 = true →
      get_error_message pkt len = ((pkt.take len).drop 4).takeWhile (· ≠ 0))
    ∧ (((pkt.take len).drop 4).contains 0 = false →
      get_error_message pkt len = []) := by
  constructor <;> intro hc
  · simp only [get_error_message, hc, if_true]
  · simp only [get_error_message, hc, Bool.false_eq_true, if_false]

/-- Witness for C9 on the concrete ERROR datagram `05 00 01 'h' 'i' 00`
(code 1, message "hi"). -/
theorem get_error_message_spec_witness :
    get_error_message [0, 5, 0, 1, 104, 105, 0] 7 =
      (([0, 5, 0, 1, 104, 105, 0].take 7).drop 4).takeWhile (· ≠ 0) :=
  (get_error_message_spec [0, 5, 0, 1, 104, 105, 0] 7 (by norm_num)).1
    (by decide)

/-- Prepending bytes that are all nonzero to a NUL leaves them as the
`takeWhile (· ≠ 0)` prefix. -/
theorem takeWhile_append_zero (m rest : List Nat) (hm : ∀ x ∈ m, x ≠ 0) :
    (m ++ 0 :: rest).takeWhile (· ≠ 0) = m := by
  induction m with
  | nil => simp [List.takeWhile_cons]
  | cons a t ih =>
    have ha : a ≠ 0 := hm a (by simp)
    have ih2 := ih fun x hx => hm x (by simp [hx])
    simpa [List.takeWhile_cons, ha] using ih2

/-- Dropping the nonzero prefix lands exactly on the NUL. -/
theorem dropWhile_append_zero (m rest : List Nat) (hm : ∀ x ∈ m, x ≠ 0) :
    (m ++ 0 :: rest).dropWhile (· ≠ 0) = 0 :: rest := by
  induction m with
  | nil => simp [List.dropWhile_cons]
  | cons a t ih =>
    have ha : a ≠ 0 := hm a (by simp)
    have ih2 := ih fun x hx => hm x (by simp [hx])
    simpa [List.dropWhile_cons, ha] using ih2

/-- `splitCString` on a nonzero prefix followed by a NUL splits there. -/
theorem splitCString_append (m rest : List Nat) (hm : ∀ x ∈ m, x ≠ 0) :
    splitCString (m ++ 0 :: rest) = some (m, rest) := by
  have hc : (m ++ 0 :: rest).contains 0 = true := by
    simp [List.elem_eq_mem]
  simp only [splitCString, hc, if_true, takeWhile_append_zero m rest hm,
    dropWhile_append_zero m rest hm, List.tail_cons]

/-- C10: for a mode byte outside {NETASCII = 1, OCTET = 2, MAIL = 3},
`mode_to_str` returns the empty string, so the WRQ/RRQ packet carries an
empty mode token: the filename's terminating NUL is immediately followed by
a second NUL, and the packet still parses as exactly two NUL-terminated
strings after the opcode. -/
theorem request_packet_invalid_mode (target : List Nat) (mode : Nat)
    (h1 : mode ≠ 1) (h2 : mode ≠ 2) (h3 : mode ≠ 3) :
    mode_to_str mode = []
    ∧ send_wrq_packet target mode =
        [0, 2] ++ target.takeWhile (· ≠ 0) ++ [0, 0]
    ∧ send_rrq_packet target mode =
        [0, 1] ++ target.takeWhile (· ≠ 0) ++ [0, 0]
    ∧ splitCString ((send_wrq_packet target mode).drop 2) =
        some (target.takeWhile (· ≠ 0), [0])
    ∧ splitCString ((send_rrq_packet target mode).drop 2) =
        some (target.takeWhile (· ≠ 0), [0])
    ∧ splitCString [0] = some ([], []) := by
  have hmode : mode_to_str mode = [] := by simp [mode_to_str, h1, h2, h3]
  have htw : ∀ x ∈ target.takeWhile (· ≠ 0), x ≠ 0 := by
    intro x hx
    simpa using List.mem_takeWhile_imp hx
  have hwrq : (send_wrq_packet target mode).drop 2 =
      target.takeWhile (· ≠ 0) ++ 0 :: [0] := by
    simp [send_wrq_packet, cstrInsert, hmode]
  have hrrq : (send_rrq_packet target mode).drop 2 =
      target.takeWhile (· ≠ 0) ++ 0 :: [0] := by
    simp [send_rrq_packet, cstrInsert, hmode]
  refine ⟨hmode, ?_, ?_, ?_, ?_, by decide⟩
  · simp [send_wrq_packet, cstrInsert, hmode]
  · simp [send_rrq_packet, cstrInsert, hmode]
  · rw [hwrq, splitCString_append _ _ htw]
  · rw [hrrq, splitCString_append _ _ htw]

/-- Witness for C10 at target `"t"` and the invalid mode byte 0. -/
theorem request_packet_invalid_mode_witness :
    splitCString ((send_wrq_packet [116] 0).drop 2) =
      some (([116] : List Nat).takeWhile (· ≠ 0), [0]) :=
  (request_packet_invalid_mode [116] 0 (by decide) (by decide)
    (by decide)).2.2.2.1

/-- C6 counterexample: on a state with an open file and an open socket,
`cleanup()` leaves both untouched — it only removes the timer and deletes
the temp file — refuting the claim that every call drops the session's file
handle and closes the socket. -/
theorem cleanup_keeps_file_and_socket :
    (cleanup { fileOpen := true, socketOpen := true, timer := some 10,
               tmpPathSet := true, tmpExists := true }).1.fileOpen = true
    ∧ (cleanup { fileOpen := true, socketOpen := true, timer := some 10,
                 tmpPathSet := true, tmpExists := true }).1.socketOpen = true
    ∧ (cleanup { fileOpen := true, socketOpen := true, timer := some 10,
                 tmpPathSet := true, tmpExists := true }).1.timer = none
    ∧ (cleanup { fileOpen := true, socketOpen := true, timer := some 10,
                 tmpPathSet := true, tmpExists := true }).1.tmpExists
        = false := by
  refine ⟨rfl, rfl, rfl, rfl⟩

/-- C6 (amended): `cleanup()` removes the retransmit timer and deletes the
temp file when the tmp path is set, leaves the file handle and socket as
they were, and is idempotent: a second call changes neither the state nor
the actions performed. -/
theorem cleanup_effects_and_idempotent (s : ClientState) :
    (cleanup s).1.timer = none
    ∧ (cleanup s).1.tmpExists = (if s.tmpPathSet then false else s.tmpExists)
    ∧ (cleanup s).1.fileOpen = s.fileOpen
    ∧ (cleanup s).1.socketOpen = s.socketOpen
    ∧ (cleanup (cleanup s).1).1 = (cleanup s).1
    ∧ (cleanup (cleanup s).1).2 = (cleanup s).2 := by
  cases hb : s.tmpPathSet <;> simp [cleanup, hb]

/-- C4: a datagram whose opcode field decodes to ERROR (5) is dispatched to
`error_handler` by both the PUT and the GET `route_message`;
`error_handler` finalizes with the status taken from the packet (`ntohs` of
the second 16-bit field, message per `get_error_message`), the completion
of the receiver is the last action, the temp-file removal of `cleanup`
precedes it whenever a temp path is set, and afterwards no temp file
exists and no timer is armed. -/
theorem error_packet_finalizes_after_cleanup (pkt : List Nat) (len : Nat)
    (s : ClientState) (hop : be16 pkt 0 = 5) :
    put_route_message pkt = .toErrorHandler
    ∧ get_route_message pkt = .toErrorHandler
    ∧ (error_handler pkt len s).2 =
        (cleanup s).2 ++ [.complete ⟨be16 pkt 2, get_error_message pkt len⟩]
    ∧ (error_handler pkt len s).2.getLast? =
        some (.complete ⟨be16 pkt 2, get_error_message pkt len⟩)
    ∧ (s.tmpPathSet = true →
        Act.removeTmpFile ∈ (error_handler pkt len s).2.dropLast)
    ∧ (s.tmpPathSet = true → (error_handler pkt len s).1.tmpExists = false)
    ∧ (error_handler pkt len s).1.timer = none := by
  refine ⟨by simp [put_route_message, hop], by simp [get_route_message, hop],
    rfl, ?_, ?_, ?_, rfl⟩
  · exact List.getLast?_concat _
  · intro ht
    have hd : (error_handler pkt len s).2.dropLast = (cleanup s).2 :=
      List.dropLast_concat
    rw [hd]
    simp [cleanup, ht]
  · intro ht
    simp [error_handler, finalizeV, cleanup, ht]

/-- Witness for C4 on the concrete ERROR datagram `05 00 01 'n' 'o' 00`
against a GET-style session with a temp file. -/
theorem error_packet_finalizes_after_cleanup_witness :
    get_route_message [0, 5, 0, 1, 110, 111, 0] = .toErrorHandler
    ∧ (error_handler [0, 5, 0, 1, 110, 111, 0] 7
        { tmpPathSet := true, tmpExists := true }).1.tmpExists = false :=
  ⟨(error_packet_finalizes_after_cleanup [0, 5, 0, 1, 110, 111, 0] 7
      { tmpPathSet := true, tmpExists := true } (by decide)).2.1,
   (error_packet_finalizes_after_cleanup [0, 5, 0, 1, 110, 111, 0] 7
      { tmpPathSet := true, tmpExists := true } (by decide)).2.2.2.2.2.1 rfl⟩

/-- C7: each GET send removes any previous timer and arms exactly one timer
of duration `5 * avg_rtt` (the freshly updated average); and when that timer
fires with the file already closed (the terminal DATA written and ACKed),
the callback finalizes OK — cleanup then completion with `Status{0, ""}` —
performing no retransmission (no send action occurs). -/
theorem get_timer_completion_signal (now : Int) (s : ClientState)
    (h : s.fileOpen = false) :
    (get_submit_sendmsg now s).1.timer =
      some (5 * (update_statistics s.stats.1 now s.stats.2).2)
    ∧ (get_submit_sendmsg now s).2 =
      [.removeTimer, .send s.buffer,
       .armTimer (5 * (update_statistics s.stats.1 now s.stats.2).2)]
    ∧ (get_timer_callback s).2 = (cleanup s).2 ++ [.complete ⟨0, []⟩]
    ∧ (get_timer_callback s).2.getLast? = some (.complete ⟨0, []⟩)
    ∧ ∀ a ∈ (get_timer_callback s).2, ∀ bytes, a ≠ .send bytes := by
  have hcb : get_timer_callback s = finalizeV s ⟨0, []⟩ := by
    simp [get_timer_callback, h]
  refine ⟨rfl, rfl, by rw [hcb]; rfl, ?_, ?_⟩
  · rw [hcb]
    exact List.getLast?_concat _
  · intro a ha bytes
    rw [hcb] at ha
    cases hb : s.tmpPathSet
    · simp [finalizeV, cleanup, hb] at ha
      rcases ha with h1 | h1 <;> subst h1 <;> simp
    · simp [finalizeV, cleanup, hb] at ha
      rcases ha with h1 | h1 | h1 <;> subst h1 <;> simp

/-- Witness for C7 at `now = 0` on a closed-file GET session. -/
theorem get_timer_completion_signal_witness :
    (get_timer_callback { fileOpen := false, tmpPathSet := true }).2 =
      (cleanup { fileOpen := false, tmpPathSet := true }).2 ++
        [.complete ⟨0, []⟩] :=
  (get_timer_completion_signal 0 { fileOpen := false, tmpPathSet := true }
    rfl).2.2.1

/-- Streaming one more byte through the NETASCII encoder applies one
transducer step to the encoded output. -/
theorem insert_data_append (xs : List Nat) (c : Nat) :
    insert_data (xs ++ [c]) = insert_data_step (insert_data xs) c := by
  simp [insert_data, List.foldl_append]

/-- C3: the outbound NETASCII encoder skips bare NUL source bytes, rewrites
LF to CR LF (backtracking a pending NUL marker so that source CR LF encodes
as CR LF), rewrites CR to CR NUL, passes other bytes through, and encodes
`"a\nb\rc\r\n"` (bytes `97 10 98 13 99 13 10`) to exactly
`a CR LF b CR NUL c CR LF` (bytes `97 13 10 98 13 0 99 13 10`). -/
theorem netascii_encoder_spec (xs : List Nat) (c : Nat) :
    insert_data (xs ++ [0]) = insert_data xs
    ∧ ((insert_data xs).getLast? = some 0 →
        insert_data (xs ++ [10]) = (insert_data xs).dropLast ++ [10])
    ∧ ((insert_data xs).getLast? ≠ some 0 →
        insert_data (xs ++ [10]) = insert_data xs ++ [13, 10])
    ∧ insert_data (xs ++ [13]) = insert_data xs ++ [13, 0]
    ∧ insert_data (xs ++ [13, 10]) = insert_data xs ++ [13, 10]
    ∧ (c ≠ 0 → c ≠ 10 → c ≠ 13 →
        insert_data (xs ++ [c]) = insert_data xs ++ [c])
    ∧ insert_data [97, 10, 98, 13, 99, 13, 10] =
        [97, 13, 10, 98, 13, 0, 99, 13, 10] := by
  refine ⟨?_, ?_, ?_, ?_, ?_, ?_, by decide⟩
  · rw [insert_data_append]
    simp [insert_data_step]
  · intro hl
    rw [insert_data_append]
    simp [insert_data_step, hl]
  · intro hl
    rw [insert_data_append]
    simp [insert_data_step, hl]
  · rw [insert_data_append]
    simp [insert_data_step]
  · have : xs ++ [13, 10] = (xs ++ [13]) ++ [10] := by simp
    rw [this, insert_data_append, insert_data_append]
    simp [insert_data_step, List.getLast?_concat, List.dropLast_concat]
  · intro h0 h10 h13
    rw [insert_data_append]
    simp [insert_data_step, h0, h10, h13]

/-- Witness for C3: a plain byte (`'a'` = 97) passes through unchanged. -/
theorem netascii_encoder_spec_witness :
    insert_data ([] ++ [97]) = insert_data [] ++ [97] :=
  (netascii_encoder_spec [] 97).2.2.2.2.2.1 (by decide) (by decide)
    (by decide)

/-- C5: when a GET session with the file open receives the expected DATA
block with a payload shorter than 512 bytes (OCTET mode shown; rename
succeeding), `data_handler` closes the file, submits the ACK for that block
(arming the grace timer), and only then renames the temp file onto the
final local path and finalizes OK; afterwards the temp path is absent and
the final local path holds the previously written bytes followed by the
received payload. -/
theorem get_completion_ordering (now : Int) (pkt : List Nat) (len : Nat)
    (s : ClientState)
    (_hopen : s.fileOpen = true)
    (hmode : s.mode = 2)
    (hblk : be16 pkt 2 = (s.block_num + 1) % 65536)
    (hlen : ((pkt.take len).drop 4).length < 512)
    (hren : s.renameFails = false)
    (htmp : s.tmpPathSet = true) :
    (data_handler now pkt len s).2 =
      [.closeFile, .removeTimer, .send (ackPacket (be16 pkt 2)),
       .armTimer (5 * (update_statistics s.stats.1 now s.stats.2).2),
       .renameTmpToLocal, .removeTimer, .removeTmpFile, .complete ⟨0, []⟩]
    ∧ (data_handler now pkt len s).1.tmpExists = false
    ∧ (data_handler now pkt len s).1.localExists = true
    ∧ (data_handler now pkt len s).1.localData =
        s.tmpData ++ (pkt.take len).drop 4 := by
  have hlen2 : len ⊓ pkt.length - 4 < 512 := by simpa using hlen
  refine ⟨?_, ?_, ?_, ?_⟩ <;>
    simp [data_handler, handle_data, decode_payload, get_submit_sendmsg,
      finalizeV, finalizeE, cleanup, hmode, hblk, hlen, hlen2, hren,
      htmp]

/-- Witness for C5: a two-byte terminal DATA block 1 arriving on a fresh
OCTET GET session that already wrote the byte 65. -/
theorem get_completion_ordering_witness :
    (data_handler 40 [0, 3, 0, 1, 72, 73] 6
        { mode := 2, tmpPathSet := true, tmpExists := true,
          tmpData := [65], stats := (0, 100) }).1.localData =
      [65] ++ ([0, 3, 0, 1, 72, 73].take 6).drop 4 :=
  (get_completion_ordering 40 [0, 3, 0, 1, 72, 73] 6
    { mode := 2, tmpPathSet := true, tmpExists := true,
      tmpData := [65], stats := (0, 100) }
    rfl rfl (by decide) (by decide) rfl rfl).2.2.2

end TFTP
